import Mathlib

/-!
Verification of the AUMSecurity front-end (App.tsx, Dashboard.tsx, Login.tsx).

The React components are embedded as pure functions over explicit state:
the session store of `App.tsx` becomes `AppState` with `login`/`logout`/
`initApp` transitions, the route table becomes `routeFor`, and the
enrollment workflow of `Dashboard.tsx` becomes `handleEnroll`, a function
from the dashboard state and the (would-be) server response to the
resulting state together with the network actions taken.
-/

namespace AumSecurity

/-- The browser localStorage as used by App.tsx: exactly the two keys
`token` and `role`. `none` models an absent key. -/
structure Storage where
  token : Option String
  role : Option String
deriving DecidableEq, Repr

/-- State owned by the App component: the two React state cells
(`token`, `role`), the persisted localStorage, and the axios global
default `Authorization` header (`axios.defaults.headers.common`). -/
structure AppState where
  token : Option String
  role : Option String
  storage : Storage
  authHeader : Option String
deriving DecidableEq, Repr

/-- The bearer credential string for a token. -/
def bearer (t : String) : String := "Bearer " ++ t

/-- Process start: `useState(localStorage.getItem('token'))` and
`useState(localStorage.getItem('role'))`. Note that App.tsx does NOT
set `axios.defaults.headers.common.Authorization` at initialization;
only `login` does. -/
def initApp (s : Storage) : AppState :=
  { token := s.token, role := s.role, storage := s, authHeader := none }

/-- `App.login(newToken, newRole)`: sets both state cells, writes both
localStorage keys, and sets the axios default Authorization header. -/
def login (st : AppState) (newToken newRole : String) : AppState :=
  { token := some newToken
    role := some newRole
    storage := { st.storage with token := some newToken, role := some newRole }
    authHeader := some (bearer newToken) }

/-- `App.logout()`: clears both state cells, removes both localStorage
keys, and deletes the axios default Authorization header. -/
def logout (st : AppState) : AppState :=
  { token := none
    role := none
    storage := { st.storage with token := none, role := none }
    authHeader := none }

/-- The app states reachable by the program itself: a first run starts
from empty storage; `login` and `logout` are the only mutators; a
process restart re-initializes from whatever storage the previous
state left behind. -/
inductive Reachable : AppState → Prop where
  | initEmpty : Reachable (initApp { token := none, role := none })
  | loginStep : ∀ {s} (t r : String), Reachable s → Reachable (login s t r)
  | logoutStep : ∀ {s}, Reachable s → Reachable (logout s)
  | restart : ∀ {s}, Reachable s → Reachable (initApp s.storage)

/-- An outgoing HTTP request as far as authentication is concerned:
its path and the Authorization header it carries, if any. -/
structure Request where
  path : String
  authHeader : Option String
deriving DecidableEq, Repr

/-- `fetchPersons` issues `axios.get('/persons')` with no explicit
headers, so the request carries exactly the axios global default. -/
def listPersonsRequest (st : AppState) : Request :=
  { path := "/persons", authHeader := st.authHeader }

/-- `fetchEvents` issues `axios.get('/events')` with no explicit
headers, so the request carries exactly the axios global default. -/
def listEventsRequest (st : AppState) : Request :=
  { path := "/events", authHeader := st.authHeader }

/-- Person read model (Dashboard.tsx interface Person). -/
structure Person where
  id : Int
  name : String
  category : String
  expiry : Option String
  contact : Option String
deriving DecidableEq, Repr

/-- Event read model (Dashboard.tsx interface Event); similarity is an
optional number, modelled as a rational. -/
structure Event where
  id : Int
  category : String
  similarity : Option Rat
  timestamp : String
deriving DecidableEq, Repr

/-- An opaque image blob selected in the file input. -/
structure ImageFile where
  fileName : String
  data : List Nat
deriving DecidableEq, Repr

/-- The controlled enrollment form state (`useState form` in Dashboard.tsx). -/
structure EnrollForm where
  name : String
  category : String
  expiry : String
  contact : String
deriving DecidableEq, Repr

/-- The initial and post-success form value:
`{ name: '', category: 'Family', expiry: '', contact: '' }`. -/
def defaultForm : EnrollForm :=
  { name := "", category := "Family", expiry := "", contact := "" }

/-- The Dashboard component state: roster and events snapshots, the
form, the selected file, the message banner and the in-flight flag. -/
structure DashState where
  persons : List Person
  events : List Event
  form : EnrollForm
  file : Option ImageFile
  message : String
  loading : Bool
deriving DecidableEq, Repr

/-- `fetchPersons`: on success the snapshot is fully replaced by the
response data; on error (`none`) only `console.error` runs, so the
state is unchanged. -/
def fetchPersons (st : DashState) (result : Option (List Person)) : DashState :=
  match result with
  | some ps => { st with persons := ps }
  | none => st

/-- `fetchEvents`: same shape as `fetchPersons` for the events snapshot. -/
def fetchEvents (st : DashState) (result : Option (List Event)) : DashState :=
  match result with
  | some es => { st with events := es }
  | none => st

/-- The multipart payload built by `handleEnroll`: `expiry` and
`contact` are appended only when truthy (non-empty in JS). -/
structure EnrollPayload where
  name : String
  category : String
  expiry : Option String
  contact : Option String
  file : ImageFile
deriving DecidableEq, Repr

/-- Builds the FormData of `handleEnroll` from the form and the file. -/
def mkPayload (f : EnrollForm) (file : ImageFile) : EnrollPayload :=
  { name := f.name
    category := f.category
    expiry := if f.expiry = "" then none else some f.expiry
    contact := if f.contact = "" then none else some f.contact
    file := file }

/-- The POST /enroll request, carrying an explicit Authorization header
built from the context token by string interpolation (a `null` token
interpolates to the literal text `null`). -/
structure EnrollRequest where
  path : String
  authHeader : String
  payload : EnrollPayload
deriving DecidableEq, Repr

/-- The header value of the template literal `Bearer ${token}` where
`token` comes from the Auth context and may be null. -/
def enrollAuthHeader (token : Option String) : String :=
  match token with
  | some t => bearer t
  | none => "Bearer null"

/-- How the server answers the enroll POST: a 2xx with a message, or a
non-2xx whose body may or may not carry a `detail` string. -/
inductive EnrollResponse where
  | success (message : String)
  | failure (detail : Option String)
deriving DecidableEq, Repr

/-- The catch branch message: backtick-interpolated
`Error: detail-or-fallback`, where `detail || 'Enrollment failed'`
treats an empty (falsy) detail like an absent one. -/
def enrollErrorMessage (detail : Option String) : String :=
  "Error: " ++
    (match detail with
     | some d => if d = "" then "Enrollment failed" else d
     | none => "Enrollment failed")

/-- The complete effect of one `handleEnroll` run: the resulting
dashboard state, the network request issued (if any), and whether a
roster re-fetch was triggered. -/
structure EnrollOutcome where
  state : DashState
  requestIssued : Option EnrollRequest
  refetchPersons : Bool
deriving DecidableEq, Repr

/-- `handleEnroll`, run to completion against a given server response:
with no file selected it returns after `setMessage('Please select an
image file')` touching nothing else; otherwise it builds the payload,
posts with an explicit bearer header, and on success sets the server
message, resets form and file and triggers `fetchPersons()`, while on
failure it only sets the error message; `finally` clears `loading`. -/
def handleEnroll (token : Option String) (st : DashState) (resp : EnrollResponse) :
    EnrollOutcome :=
  match st.file with
  | none =>
      { state := { st with message := "Please select an image file" }
        requestIssued := none
        refetchPersons := false }
  | some file =>
      let req : EnrollRequest :=
        { path := "/enroll"
          authHeader := enrollAuthHeader token
          payload := mkPayload st.form file }
      match resp with
      | EnrollResponse.success msg =>
          { state := { st with loading := false, message := msg,
                               form := defaultForm, file := none }
            requestIssued := some req
            refetchPersons := true }
      | EnrollResponse.failure detail =>
          { state := { st with loading := false,
                               message := enrollErrorMessage detail }
            requestIssued := some req
            refetchPersons := false }

/-- The actions fired by the Dashboard mount effect:
`if (!token) navigate('/login'); fetchPersons(); fetchEvents();` —
note the missing early return: both fetches run unconditionally. -/
structure EffectActions where
  navigateToLogin : Bool
  personsFetchIssued : Bool
  eventsFetchIssued : Bool
deriving DecidableEq, Repr

/-- JS truthiness of the nullable token: `!token` is false exactly when
the token is present and non-empty; both a null token and an
empty-string token are falsy and count as logged out. -/
def tokenTruthy : Option String → Bool
  | some t => if t = "" then false else true
  | none => false

/-- The Dashboard `useEffect` body as a function of the context token;
`if (!token) navigate('/login')` fires on any falsy token, so also on
an empty-string one. -/
def dashboardEffect (token : Option String) : EffectActions :=
  { navigateToLogin := !tokenTruthy token
    personsFetchIssued := true
    eventsFetchIssued := true }

/-- The two views the router can render. -/
inductive View where
  | loginView
  | dashboardView
deriving DecidableEq, Repr

/-- What a matched route does: render a view or redirect to a path. -/
inductive RouteOutcome where
  | render (v : View)
  | redirect (target : String)
deriving DecidableEq, Repr

/-- The App.tsx route table as a function of (path, token): the guards
`!token` and `token ? ... : ...` test JS truthiness, so a present but
empty token behaves like no token; `/login` renders Login unless the
token is truthy, `/dashboard` renders Dashboard only with a truthy
token, `/` always navigates; other paths match no route. -/
def routeFor (path : String) (token : Option String) : Option RouteOutcome :=
  if path = "/login" then
    some (if tokenTruthy token then RouteOutcome.redirect "/dashboard"
          else RouteOutcome.render View.loginView)
  else if path = "/dashboard" then
    some (if tokenTruthy token then RouteOutcome.render View.dashboardView
          else RouteOutcome.redirect "/login")
  else if path = "/" then
    some (RouteOutcome.redirect (if tokenTruthy token then "/dashboard" else "/login"))
  else none

/-- A sample image blob for concrete evaluations. -/
def sampleFile : ImageFile := { fileName := "img.png", data := [1, 2, 3] }

/-- A sample dashboard state with a selected file. -/
def sampleDashWithFile : DashState :=
  { persons := []
    events := []
    form := { name := "Jane Doe", category := "Family", expiry := "", contact := "" }
    file := some sampleFile
    message := ""
    loading := false }

/-- A sample dashboard state with an empty name but a file selected. -/
def emptyNameDash : DashState :=
  { persons := []
    events := []
    form := { name := "", category := "Family", expiry := "", contact := "" }
    file := some sampleFile
    message := ""
    loading := false }

/-- A sample dashboard state with no file selected. -/
def noFileDash : DashState :=
  { persons := []
    events := []
    form := defaultForm
    file := none
    message := ""
    loading := false }

/-- In every reachable app state, the in-memory token and role are
together, and so are the two persisted storage entries. -/
theorem reachable_storage_inv (s : AppState) (h : Reachable s) :
    (s.token.isSome ↔ s.role.isSome) ∧
    (s.storage.token.isSome ↔ s.storage.role.isSome) := by
  induction h with
  | initEmpty => simp [initApp]
  | loginStep t r _ ih => simp [login]
  | logoutStep _ ih => simp [logout]
  | restart _ ih => exact ⟨ih.2, ih.2⟩

/-- In every reachable app state with no token, the axios default
Authorization header is absent as well. -/
theorem reachable_no_token_no_header (s : AppState) (h : Reachable s) :
    s.token = none → s.authHeader = none := by
  induction h with
  | initEmpty => intro _; rfl
  | loginStep t r _ ih => intro hc; simp [login] at hc
  | logoutStep _ ih => intro _; rfl
  | restart _ ih => intro _; rfl

/-- C2: in every reachable session state — initialization from
persisted storage, login, or logout — the credential token and the
role are both present or both absent. -/
theorem c2_token_role_together (s : AppState) (h : Reachable s) :
    s.token.isSome ↔ s.role.isSome :=
  (reachable_storage_inv s h).1

theorem c2_token_role_together_witness :
    (login (initApp { token := none, role := none }) "abc" "operator").token.isSome ↔
    (login (initApp { token := none, role := none }) "abc" "operator").role.isSome :=
  c2_token_role_together _ (Reachable.loginStep "abc" "operator" Reachable.initEmpty)

/-- C3: after login(t, r) the session holds token t and role r and both
storage entries are written; after logout() token and role are absent
from both the in-memory session and storage. -/
theorem c3_login_logout_sync (s : AppState) (t r : String) :
    (login s t r).token = some t ∧ (login s t r).role = some r ∧
    (login s t r).storage.token = some t ∧ (login s t r).storage.role = some r ∧
    (logout s).token = none ∧ (logout s).role = none ∧
    (logout s).storage.token = none ∧ (logout s).storage.role = none := by
  simp [login, logout]

/-- C4 fails as stated: in the reachable state produced by a login with
the empty-string token, the session is present (token and role both
set), yet the guard treats the falsy token as logged out: the login
view is rendered, and /dashboard and / both redirect to /login —
contradicting admission of the dashboard for every present session. -/
theorem c4_counterexample_empty_token :
    Reachable (login (initApp { token := none, role := none }) "" "operator") ∧
    (login (initApp { token := none, role := none }) "" "operator").token = some "" ∧
    (login (initApp { token := none, role := none }) "" "operator").role = some "operator" ∧
    routeFor "/login" (some "") = some (RouteOutcome.render View.loginView) ∧
    routeFor "/dashboard" (some "") = some (RouteOutcome.redirect "/login") ∧
    routeFor "/" (some "") = some (RouteOutcome.redirect "/login") := by
  refine ⟨Reachable.loginStep "" "operator" Reachable.initEmpty, rfl, rfl, ?_, ?_, ?_⟩ <;>
    simp [routeFor, tokenTruthy]

/-- C4 amended: the route guard is a pure deterministic function of
(path, token) whose admission test is the JS truthiness of the token —
a session counts as active exactly when the token is present and
non-empty: the login view is admitted iff the token is absent or
empty (otherwise redirecting to the dashboard), the dashboard view is
admitted iff the token is present and non-empty (otherwise redirecting
to login), and the root path never renders but always redirects by
token truthiness; identical inputs give identical outcomes. -/
theorem c4_amended_route_guard (token : Option String) (p : String) :
    (routeFor "/login" token = some (RouteOutcome.render View.loginView) ↔
      tokenTruthy token = false) ∧
    (routeFor "/login" token = some (RouteOutcome.redirect "/dashboard") ↔
      tokenTruthy token = true) ∧
    (routeFor "/dashboard" token = some (RouteOutcome.render View.dashboardView) ↔
      tokenTruthy token = true) ∧
    (routeFor "/dashboard" token = some (RouteOutcome.redirect "/login") ↔
      tokenTruthy token = false) ∧
    (∀ v : View, routeFor "/" token ≠ some (RouteOutcome.render v)) ∧
    routeFor "/" token =
      some (RouteOutcome.redirect (if tokenTruthy token then "/dashboard" else "/login")) ∧
    routeFor p token = routeFor p token := by
  rcases token with _ | t
  · simp [routeFor, tokenTruthy]
  · by_cases ht : t = "" <;> simp [routeFor, tokenTruthy, ht]

/-- C1 fails as stated: in the reachable state obtained by restarting
the process after a login — so the token "abc" is restored from
persisted storage, before any login() call in the new process — the
outgoing listPersons and listEvents requests carry no Authorization
header at all, because only login() arms the axios default header. -/
theorem c1_counterexample_restored_token :
    Reachable
      (initApp (login (initApp { token := none, role := none }) "abc" "operator").storage) ∧
    (initApp (login (initApp { token := none, role := none }) "abc" "operator").storage).token
      = some "abc" ∧
    (listPersonsRequest
      (initApp (login (initApp { token := none, role := none }) "abc" "operator").storage)).authHeader
      = none ∧
    (listEventsRequest
      (initApp (login (initApp { token := none, role := none }) "abc" "operator").storage)).authHeader
      = none :=
  ⟨Reachable.restart (Reachable.loginStep "abc" "operator" Reachable.initEmpty),
   rfl, rfl, rfl⟩

/-- C1 amended: submitEnrollment attaches the current session token at
call time in every state that has one; listPersons and listEvents
carry the axios default header, which a login() in this process sets
to the logged-in token's bearer credential (so a login after client
creation is honored), but which is absent in any state freshly
initialized from persisted storage — and after logout. -/
theorem c1_amended_bearer_attachment :
    (∀ (t : String) (st : DashState) (f : ImageFile) (resp : EnrollResponse),
        st.file = some f →
        ((handleEnroll (some t) st resp).requestIssued.map (fun rq => rq.authHeader))
          = some (bearer t)) ∧
    (∀ (s : AppState) (t r : String),
        (listPersonsRequest (login s t r)).authHeader = some (bearer t) ∧
        (listEventsRequest (login s t r)).authHeader = some (bearer t)) ∧
    (∀ store : Storage,
        (listPersonsRequest (initApp store)).authHeader = none ∧
        (listEventsRequest (initApp store)).authHeader = none) ∧
    (∀ s : AppState,
        (listPersonsRequest (logout s)).authHeader = none ∧
        (listEventsRequest (logout s)).authHeader = none) := by
  refine ⟨?_, ?_, ?_, ?_⟩
  · intro t st f resp hf
    cases resp <;> simp [handleEnroll, hf, enrollAuthHeader]
  · intro s t r
    exact ⟨rfl, rfl⟩
  · intro store
    exact ⟨rfl, rfl⟩
  · intro s
    exact ⟨rfl, rfl⟩

theorem c1_amended_bearer_attachment_witness :
    ((handleEnroll (some "abc") sampleDashWithFile (EnrollResponse.success "ok")).requestIssued.map
      (fun rq => rq.authHeader)) = some (bearer "abc") :=
  c1_amended_bearer_attachment.1 "abc" sampleDashWithFile sampleFile
    (EnrollResponse.success "ok") rfl

/-- C5 fails as stated: a submission with an empty name but a file
selected does issue the network request — handleEnroll checks only the
file; the empty-name case is not short-circuited locally. -/
theorem c5_counterexample_empty_name_submits :
    emptyNameDash.form.name = "" ∧
    (handleEnroll (some "abc") emptyNameDash (EnrollResponse.success "ok")).requestIssued
      ≠ none := by
  refine ⟨rfl, ?_⟩
  simp [handleEnroll, emptyNameDash]

/-- C5 amended: only the missing-file precondition is checked by the
workflow: with no file selected, no network request is issued, no
roster re-fetch is triggered, and the message shown is exactly
"Please select an image file" (an empty name alone does not prevent
the request). -/
theorem c5_amended_file_check_only (token : Option String) (st : DashState)
    (resp : EnrollResponse) (h : st.file = none) :
    (handleEnroll token st resp).requestIssued = none ∧
    (handleEnroll token st resp).state.message = "Please select an image file" ∧
    (handleEnroll token st resp).refetchPersons = false := by
  simp [handleEnroll, h]

theorem c5_amended_file_check_only_witness :
    (handleEnroll (some "abc") noFileDash (EnrollResponse.success "ok")).requestIssued = none ∧
    (handleEnroll (some "abc") noFileDash (EnrollResponse.success "ok")).state.message
      = "Please select an image file" ∧
    (handleEnroll (some "abc") noFileDash (EnrollResponse.success "ok")).refetchPersons = false :=
  c5_amended_file_check_only (some "abc") noFileDash (EnrollResponse.success "ok") rfl

/-- C6: a successful submission resets every form field to its default
(empty name, category Family, empty expiry, empty contact), clears the
file selection, surfaces the server message, and triggers the roster
re-fetch whose result fully replaces the held snapshot. -/
theorem c6_success_resets_and_refetches (token : Option String) (st : DashState)
    (msg : String) (f : ImageFile) (newRoster : List Person) (h : st.file = some f) :
    (handleEnroll token st (EnrollResponse.success msg)).state.form = defaultForm ∧
    (handleEnroll token st (EnrollResponse.success msg)).state.file = none ∧
    (handleEnroll token st (EnrollResponse.success msg)).state.message = msg ∧
    (handleEnroll token st (EnrollResponse.success msg)).refetchPersons = true ∧
    (fetchPersons (handleEnroll token st (EnrollResponse.success msg)).state
      (some newRoster)).persons = newRoster := by
  simp [handleEnroll, fetchPersons, h]

theorem c6_success_resets_and_refetches_witness :
    (handleEnroll (some "abc") sampleDashWithFile (EnrollResponse.success "enrolled")).state.form
      = defaultForm ∧
    (handleEnroll (some "abc") sampleDashWithFile (EnrollResponse.success "enrolled")).state.file
      = none ∧
    (handleEnroll (some "abc") sampleDashWithFile (EnrollResponse.success "enrolled")).state.message
      = "enrolled" ∧
    (handleEnroll (some "abc") sampleDashWithFile (EnrollResponse.success "enrolled")).refetchPersons
      = true ∧
    (fetchPersons
      (handleEnroll (some "abc") sampleDashWithFile (EnrollResponse.success "enrolled")).state
      (some [])).persons = [] :=
  c6_success_resets_and_refetches (some "abc") sampleDashWithFile "enrolled" sampleFile [] rfl

/-- C7: a submission that fails after the request was issued leaves the
form fields, the file selection and both snapshots unchanged; only the
message and the in-flight flag change, and the flag ends false so the
workflow is back to Idle and retry is possible. -/
theorem c7_failure_preserves_fields (token : Option String) (st : DashState)
    (detail : Option String) (f : ImageFile) (h : st.file = some f) :
    (handleEnroll token st (EnrollResponse.failure detail)).state.form = st.form ∧
    (handleEnroll token st (EnrollResponse.failure detail)).state.file = st.file ∧
    (handleEnroll token st (EnrollResponse.failure detail)).state.persons = st.persons ∧
    (handleEnroll token st (EnrollResponse.failure detail)).state.events = st.events ∧
    (handleEnroll token st (EnrollResponse.failure detail)).state.message
      = enrollErrorMessage detail ∧
    (handleEnroll token st (EnrollResponse.failure detail)).state.loading = false ∧
    (handleEnroll token st (EnrollResponse.failure detail)).refetchPersons = false := by
  simp [handleEnroll, h]

theorem c7_failure_preserves_fields_witness :
    (handleEnroll (some "abc") sampleDashWithFile (EnrollResponse.failure (some "bad"))).state.form
      = sampleDashWithFile.form ∧
    (handleEnroll (some "abc") sampleDashWithFile (EnrollResponse.failure (some "bad"))).state.file
      = sampleDashWithFile.file ∧
    (handleEnroll (some "abc") sampleDashWithFile (EnrollResponse.failure (some "bad"))).state.persons
      = sampleDashWithFile.persons ∧
    (handleEnroll (some "abc") sampleDashWithFile (EnrollResponse.failure (some "bad"))).state.events
      = sampleDashWithFile.events ∧
    (handleEnroll (some "abc") sampleDashWithFile (EnrollResponse.failure (some "bad"))).state.message
      = enrollErrorMessage (some "bad") ∧
    (handleEnroll (some "abc") sampleDashWithFile (EnrollResponse.failure (some "bad"))).state.loading
      = false ∧
    (handleEnroll (some "abc") sampleDashWithFile (EnrollResponse.failure (some "bad"))).refetchPersons
      = false :=
  c7_failure_preserves_fields (some "abc") sampleDashWithFile (some "bad") sampleFile rfl

/-- C8 fails as stated: when the server supplies the detail
"duplicate person", the surfaced message is "Error: duplicate person",
not the detail string verbatim. -/
theorem c8_counterexample_error_prefix :
    (handleEnroll (some "abc") sampleDashWithFile
      (EnrollResponse.failure (some "duplicate person"))).state.message
      ≠ "duplicate person" ∧
    (handleEnroll (some "abc") sampleDashWithFile
      (EnrollResponse.failure (some "duplicate person"))).state.message
      = "Error: duplicate person" := by
  refine ⟨?_, rfl⟩
  decide

/-- C8 amended: on a non-2xx response the surfaced message is "Error: "
followed by the server-provided detail when a non-empty detail is
supplied, and "Error: Enrollment failed" when the detail is absent or
empty (an empty detail is falsy and takes the fallback). -/
theorem c8_amended_prefixed_detail (token : Option String) (st : DashState)
    (f : ImageFile) (d : String) (h : st.file = some f) :
    (d ≠ "" →
      (handleEnroll token st (EnrollResponse.failure (some d))).state.message = "Error: " ++ d) ∧
    (handleEnroll token st (EnrollResponse.failure (some ""))).state.message
      = "Error: Enrollment failed" ∧
    (handleEnroll token st (EnrollResponse.failure none)).state.message
      = "Error: Enrollment failed" := by
  refine ⟨fun hd => ?_, ?_, ?_⟩
  · simp [handleEnroll, h, enrollErrorMessage, hd]
  · simp [handleEnroll, h, enrollErrorMessage]
  · simp [handleEnroll, h, enrollErrorMessage]

theorem c8_amended_prefixed_detail_witness :
    (handleEnroll (some "abc") sampleDashWithFile
      (EnrollResponse.failure (some "duplicate"))).state.message = "Error: " ++ "duplicate" :=
  (c8_amended_prefixed_detail (some "abc") sampleDashWithFile sampleFile "duplicate" rfl).1
    (by decide)

/-- C9: a failed listPersons or listEvents fetch leaves the dashboard
state exactly as it was — the previous (or initial empty) snapshot
stays displayed and no message is surfaced. -/
theorem c9_fetch_failure_silent (st : DashState) :
    fetchPersons st none = st ∧ fetchEvents st none = st :=
  ⟨rfl, rfl⟩

/-- C10: the dashboard mount effect issues both the persons fetch and
the events fetch for every token state — even with no token, when the
redirect to login is also triggered — and in any reachable state with
no token those GET requests carry no Authorization header. -/
theorem c10_fetches_unconditional (token : Option String) (s : AppState)
    (hs : Reachable s) (hnone : s.token = none) :
    (dashboardEffect token).personsFetchIssued = true ∧
    (dashboardEffect token).eventsFetchIssued = true ∧
    (dashboardEffect none).navigateToLogin = true ∧
    (listPersonsRequest s).authHeader = none ∧
    (listEventsRequest s).authHeader = none := by
  have hh := reachable_no_token_no_header s hs hnone
  refine ⟨rfl, rfl, rfl, ?_, ?_⟩
  · simpa [listPersonsRequest] using hh
  · simpa [listEventsRequest] using hh

theorem c10_fetches_unconditional_witness :
    (dashboardEffect none).personsFetchIssued = true ∧
    (dashboardEffect none).eventsFetchIssued = true ∧
    (dashboardEffect none).navigateToLogin = true ∧
    (listPersonsRequest (initApp { token := none, role := none })).authHeader = none ∧
    (listEventsRequest (initApp { token := none, role := none })).authHeader = none :=
  c10_fetches_unconditional none (initApp { token := none, role := none })
    Reachable.initEmpty rfl

end AumSecurity
